import Mathlib

/-!
Shallow embedding of `buildbot/worker/kubernetes.py` (`KubeLatentWorker`):
the latent-worker lifecycle controller backed by a Kubernetes cluster client.

The embedded operations are `getPodSpec`, `start_instance` and
`stop_instance`.  Asynchronous cluster calls (`createPod`, `deletePod`,
`waitForPodDeletion`) are modelled by passing in an environment that fixes
the outcome of each call, and each operation returns, besides its
result (`Except`-style, mirroring Python exceptions) and the updated
instance state, the ordered list of observable events it performed
(state clearing and cluster-client calls).
-/

namespace KubeWorker

/-- One `{"name": k, "value": v}` entry of a container's `env` list. -/
structure EnvVar where
  name : String
  value : String
deriving DecidableEq, Repr

/-- One entry of the pod spec's `containers` list, as built by
`KubeLatentWorker.getPodSpec` (opaque maps such as `resources` are modelled
as association lists). -/
structure Container where
  name : String
  image : String
  env : List EnvVar
  resources : List (String × String)
  volumeMounts : List String
deriving DecidableEq, Repr

/-- The dictionary returned by `KubeLatentWorker.getPodSpec`, flattened:
`metadataName` is `metadata.name`, the remaining fields are the entries of
the nested `spec` dictionary. -/
structure PodSpec where
  apiVersion : String
  kind : String
  metadataName : String
  affinity : List (String × String)
  containers : List Container
  nodeSelector : List (String × String)
  restartPolicy : String
  volumes : List String
deriving DecidableEq, Repr

/-- The results of the customization points consulted by `getPodSpec`
(`getBuildContainerResources`, `get_build_container_volume_mounts`,
`get_affinity`, `get_node_selector`, `get_volumes`,
`getServicesContainers`); a subclass may override any of them. -/
structure ExtensionPoints where
  buildContainerResources : List (String × String)
  build_container_volume_mounts : List String
  affinity : List (String × String)
  node_selector : List (String × String)
  volumes : List String
  servicesContainers : List Container
deriving DecidableEq, Repr

/-- `getBuildContainerResources` default: `return {}`. -/
def getBuildContainerResources : List (String × String) := []

/-- `get_build_container_volume_mounts` default: `return []`. -/
def get_build_container_volume_mounts : List String := []

/-- `get_affinity` default: `return {}`. -/
def get_affinity : List (String × String) := []

/-- `get_node_selector` default: `return {}`. -/
def get_node_selector : List (String × String) := []

/-- `get_volumes` default: `return []`. -/
def get_volumes : List String := []

/-- `getServicesContainers` default: `return []`. -/
def getServicesContainers : List Container := []

/-- The extension-point results when no customization point is overridden:
every one of them returns its empty default. -/
def defaultExtensionPoints : ExtensionPoints :=
  { buildContainerResources := getBuildContainerResources
    build_container_volume_mounts := get_build_container_volume_mounts
    affinity := get_affinity
    node_selector := get_node_selector
    volumes := get_volumes
    servicesContainers := getServicesContainers }

/-- Static configuration of one `KubeLatentWorker` instance:  `namespace'`
models `self.namespace`, `missing_timeout` models `self.missing_timeout`
and `workername` the worker's configured identity. -/
structure Worker where
  workername : String
  namespace' : String
  image : String
  missing_timeout : Nat
deriving DecidableEq, Repr

/-- Modelled from the spec: `getContainerName` (inherited from
`DockerBaseWorker`, not part of this excerpt) produces the
"stable name derived from the worker's configured identity; used as the
workload's external name and as the key for delete/wait operations". -/
def getContainerName (w : Worker) : String := "buildbot-" ++ w.workername

/-- `KubeLatentWorker.getPodSpec`, with the two rendered build-context
inputs (`build.render(self.image)` and `self.createEnvironment(build)`)
and the customization-point results passed in explicitly. -/
def getPodSpec (w : Worker) (image : String) (env : List (String × String))
    (ext : ExtensionPoints) : PodSpec :=
  { apiVersion := "v1"
    kind := "Pod"
    metadataName := getContainerName w
    affinity := ext.affinity
    containers :=
      [{ name := getContainerName w
         image := image
         env := env.map fun kv => { name := kv.1, value := kv.2 }
         resources := ext.buildContainerResources
         volumeMounts := ext.build_container_volume_mounts }]
      ++ ext.servicesContainers
    nodeSelector := ext.node_selector
    restartPolicy := "Never"
    volumes := ext.volumes }

/-- Mutable per-instance state threaded through the lifecycle operations:
`current_pod_spec` models `self.current_pod_spec`; `actual_build_props`
models the cached rendered worker props.  Modelled from the spec: the
cache written by `renderWorkerPropsOnStart` and cleared by
`resetWorkerPropsOnStop` (both inherited from `CompatibleLatentWorkerMixin`,
not part of this excerpt) is the spec's "render-on-start, reset-on-stop
mutable cached-spec pattern". -/
structure WorkerState where
  current_pod_spec : Option PodSpec
  actual_build_props : Option PodSpec
deriving DecidableEq, Repr

/-- One cluster-client call, with the arguments the worker passes. -/
inductive KubeCall where
  | deletePod (ns name : String)
  | waitForPodDeletion (ns name : String) (timeout : Nat)
  | createPod (ns : String) (spec : PodSpec)
deriving DecidableEq, Repr

/-- Observable events of a lifecycle operation, in program order:
clearing `self.current_pod_spec`, the `resetWorkerPropsOnStop` cache
reset, and cluster-client calls. -/
inductive Event where
  | clearPodSpec
  | resetWorkerProps
  | kube (call : KubeCall)
deriving DecidableEq, Repr

/-- A `KubeJsonError` raised by the cluster client: carries the API
`reason` (e.g. `"NotFound"`, `"Forbidden"`) and the message used by
`str(e)`. -/
structure KubeJsonErr where
  reason : String
  message : String
deriving DecidableEq, Repr

/-- The exceptions that can cross the embedded operations' boundaries.
`kubeJson` and `kube` model `KubeJsonError` and its base `KubeError`;
`timeoutErr` the `TimeoutError` raised by `waitForPodDeletion`;
`failedToSubstantiate` the `LatentWorkerFailedToSubstantiate` raised by
`start_instance`; `renderErr` a rendering failure (modelled from the
spec's `RenderError`). -/
inductive WorkerError where
  | kubeJson (reason message : String)
  | kube (message : String)
  | timeoutErr (ns name : String) (timeout : Nat)
  | failedToSubstantiate (message : String)
  | renderErr (message : String)
deriving DecidableEq, Repr

/-- Whether the exception is an instance of `KubeError` (the class caught
by `start_instance`): `KubeJsonError` subclasses `KubeError`; the timeout,
substantiation and render errors do not. -/
def WorkerError.isKubeError : WorkerError → Bool
  | .kubeJson _ _ => true
  | .kube _ => true
  | _ => false

/-- The `str(e)` of an exception, as interpolated into
`LatentWorkerFailedToSubstantiate(str(e))`. -/
def WorkerError.toMessage : WorkerError → String
  | .kubeJson _ message => message
  | .kube message => message
  | .timeoutErr ns name timeout =>
      "pod " ++ name ++ " in " ++ ns ++ " did not terminate after "
        ++ toString timeout ++ "s"
  | .failedToSubstantiate message => message
  | .renderErr message => message

/-- Equality of `Except` results is decidable when it is on both sides. -/
instance {ε α : Type} [DecidableEq ε] [DecidableEq α] :
    DecidableEq (Except ε α) := fun a b =>
  match a, b with
  | .ok x, .ok y =>
      if h : x = y then isTrue (by rw [h]) else isFalse (by simp [h])
  | .ok _, .error _ => isFalse (by simp)
  | .error _, .ok _ => isFalse (by simp)
  | .error x, .error y =>
      if h : x = y then isTrue (by rw [h]) else isFalse (by simp [h])

/-- Outcome fixed by the environment for one `waitForPodDeletion` call:
either the cluster confirms deletion in time, or the call raises its
timeout error. -/
inductive WaitOutcome where
  | confirmed
  | timeout
deriving DecidableEq, Repr

/-- Environment of one `stop_instance` call: the outcome of its
`deletePod` call (`none` = acknowledged, `some e` = `KubeJsonError e`) and
of its `waitForPodDeletion` call (consulted only when reached). -/
structure StopEnv where
  deletePodResult : Option KubeJsonErr
  waitResult : WaitOutcome
deriving DecidableEq, Repr

/-- Result of a `stop_instance` call: the Python return/raise outcome, the
instance state after the call, and the events performed. -/
structure StopResult where
  result : Except WorkerError Unit
  state : WorkerState
  events : List Event
deriving DecidableEq, Repr

/-- `KubeLatentWorker.stop_instance(fast, reportFailure)`:
clear `self.current_pod_spec`, call `resetWorkerPropsOnStop()`, request
`deletePod`, swallow a `KubeJsonError` unless `reportFailure` is set and
its reason differs from `"NotFound"`, return early when `fast`, otherwise
`waitForPodDeletion` bounded by `self.missing_timeout`. -/
def stop_instance (w : Worker) (s : WorkerState) (fast reportFailure : Bool)
    (env : StopEnv) : StopResult :=
  let s' : WorkerState := { s with current_pod_spec := none, actual_build_props := none }
  let deleted : List Event :=
    [Event.clearPodSpec, Event.resetWorkerProps,
     Event.kube (KubeCall.deletePod w.namespace' (getContainerName w))]
  let raised : Option WorkerError :=
    match env.deletePodResult with
    | none => none
    | some e =>
        if reportFailure && e.reason != "NotFound" then
          some (WorkerError.kubeJson e.reason e.message)
        else none
  match raised with
  | some err => { result := .error err, state := s', events := deleted }
  | none =>
      if fast then { result := .ok (), state := s', events := deleted }
      else
        let waited := deleted
          ++ [Event.kube (KubeCall.waitForPodDeletion w.namespace'
                (getContainerName w) w.missing_timeout)]
        match env.waitResult with
        | .confirmed => { result := .ok (), state := s', events := waited }
        | .timeout =>
            { result := .error (.timeoutErr w.namespace' (getContainerName w)
                w.missing_timeout)
              state := s', events := waited }

/-- Environment of one `start_instance` call: the environment of its
internal cleanup `stop_instance`, the outcome of rendering the worker
props (`renderWorkerPropsOnStart`, i.e. `getPodSpec`; `.error` = a render
error with that message), and the outcome of `createPod` (`none` =
acknowledged, `some e` = `KubeError e` raised). -/
structure StartEnv where
  stopEnv : StopEnv
  renderResult : Except String PodSpec
  createPodResult : Option KubeJsonErr
deriving DecidableEq, Repr

/-- Result of a `start_instance` call: the Python return/raise outcome
(`true` on success), the instance state after the call, and the events
performed. -/
structure StartResult where
  result : Except WorkerError Bool
  state : WorkerState
  events : List Event
deriving DecidableEq, Repr

/-- The body of `start_instance`'s `try` block: cleanup
`stop_instance(reportFailure=False)`, then `renderWorkerPropsOnStart`
(which caches the rendered pod spec in the instance state), then
`createPod(self.namespace, pod_spec)`. -/
def start_instance_body (w : Worker) (s : WorkerState) (env : StartEnv) :
    StartResult :=
  let stopRes := stop_instance w s false false env.stopEnv
  match stopRes.result with
  | .error e => { result := .error e, state := stopRes.state, events := stopRes.events }
  | .ok _ =>
      match env.renderResult with
      | .error msg =>
          { result := .error (.renderErr msg), state := stopRes.state
            events := stopRes.events }
      | .ok pod_spec =>
          let s' := { stopRes.state with actual_build_props := some pod_spec }
          let evs := stopRes.events
            ++ [Event.kube (KubeCall.createPod w.namespace' pod_spec)]
          match env.createPodResult with
          | some e =>
              { result := .error (.kubeJson e.reason e.message), state := s'
                events := evs }
          | none => { result := .ok true, state := s', events := evs }

/-- `KubeLatentWorker.start_instance(build)`: run the `try` body; on
`except KubeError as e`, `raise LatentWorkerFailedToSubstantiate(str(e))`;
any other exception propagates unchanged. -/
def start_instance (w : Worker) (s : WorkerState) (env : StartEnv) :
    StartResult :=
  let body := start_instance_body w s env
  match body.result with
  | .error e =>
      if e.isKubeError then
        { result := .error (.failedToSubstantiate e.toMessage)
          state := body.state, events := body.events }
      else body
  | .ok _ => body

/-- The cluster-client calls among a list of events, in order. -/
def kubeCalls (events : List Event) : List KubeCall :=
  events.filterMap fun e =>
    match e with
    | .kube c => some c
    | _ => none

/-- The workload name a cluster-client call operates on: the `name`
argument of `deletePod` and `waitForPodDeletion`, the spec's
`metadata.name` for `createPod`. -/
def KubeCall.targetName : KubeCall → String
  | .deletePod _ n => n
  | .waitForPodDeletion _ n _ => n
  | .createPod _ spec => spec.metadataName

/-- The condition under which the `deletePod` error handler of
`stop_instance` re-raises: a `KubeJsonError` was raised, `reportFailure`
is set, and the reason is not `"NotFound"`. -/
def reportableDeleteError (reportFailure : Bool) (env : StopEnv) : Bool :=
  match env.deletePodResult with
  | none => false
  | some e => reportFailure && e.reason != "NotFound"

/-- Cluster-state semantics of one call: `deletePod` removes every live
workload with the deleted name, `createPod` brings a workload with the
spec's name to life, `waitForPodDeletion` changes nothing. -/
def applyCall (live : List String) : KubeCall → List String
  | .deletePod _ n => live.filter (fun m => m != n)
  | .waitForPodDeletion _ _ _ => live
  | .createPod _ spec => spec.metadataName :: live

/-- Run a sequence of cluster calls against a cluster state. -/
def runCalls (live : List String) (calls : List KubeCall) : List String :=
  calls.foldl applyCall live

/-- How many live workloads carry the given name. -/
def liveCount (live : List String) (n : String) : Nat := live.count n

/-- After every prefix of the call sequence, at most one live workload
carries the given name. -/
def atMostOneLive (live : List String) (n : String)
    (calls : List KubeCall) : Prop :=
  ∀ k, liveCount (runCalls live (calls.take k)) n ≤ 1

/-- Shorthand for the four events of the cleanup `stop_instance` call
performed at the beginning of `start_instance`. -/
def cleanupEvents (w : Worker) : List Event :=
  [Event.clearPodSpec, Event.resetWorkerProps,
   Event.kube (.deletePod w.namespace' (getContainerName w)),
   Event.kube (.waitForPodDeletion w.namespace' (getContainerName w)
     w.missing_timeout)]

/-- A concrete worker configuration used for concrete evaluations. -/
def wDemo : Worker :=
  { workername := "wk", namespace' := "ci"
    image := "buildbot/buildbot-worker", missing_timeout := 45 }

/-- A concrete instance state holding a stale cached spec. -/
def sDemo : WorkerState :=
  ⟨some (getPodSpec wDemo "old" [] defaultExtensionPoints), none⟩

/-- The pod spec rendered for the demonstration build. -/
def specDemo : PodSpec :=
  getPodSpec wDemo "worker:latest" [("X", "1")] defaultExtensionPoints

/-- A stop environment whose delete call raises `KubeJsonError` with
reason `"NotFound"` and whose wait confirms. -/
def envNotFound : StopEnv :=
  ⟨some ⟨"NotFound", "pods buildbot-wk not found"⟩, .confirmed⟩

/-- A start environment in which every call succeeds and rendering
produces the demonstration pod spec. -/
def envCreateOk : StartEnv :=
  ⟨⟨none, .confirmed⟩, .ok specDemo, none⟩

/-! ### Basic lemmas about the embedded operations -/

/-- `stop_instance` always leaves the instance state fully cleared. -/
lemma stop_instance_state (w : Worker) (s : WorkerState)
    (fast reportFailure : Bool) (env : StopEnv) :
    (stop_instance w s fast reportFailure env).state =
      ⟨none, none⟩ := by
  rcases env with ⟨del, wait⟩
  rcases del with _ | e <;> rcases wait <;> rcases fast <;>
    rcases reportFailure <;> simp [stop_instance] <;> (try split) <;> simp

/-- With failure reporting suppressed, `stop_instance` always issues the
delete and then the wait call, whatever the delete outcome. -/
lemma stop_instance_rf_false_events (w : Worker) (s : WorkerState)
    (env : StopEnv) :
    (stop_instance w s false false env).events =
      [Event.clearPodSpec, Event.resetWorkerProps,
       Event.kube (.deletePod w.namespace' (getContainerName w)),
       Event.kube (.waitForPodDeletion w.namespace' (getContainerName w)
         w.missing_timeout)] := by
  rcases env with ⟨del, wait⟩
  rcases del with _ | e <;> rcases wait <;> simp [stop_instance]

/-- With failure reporting suppressed, `stop_instance`'s outcome is
decided by the wait alone: delete errors are swallowed. -/
lemma stop_instance_rf_false_result (w : Worker) (s : WorkerState)
    (env : StopEnv) :
    (stop_instance w s false false env).result =
      match env.waitResult with
      | .confirmed => .ok ()
      | .timeout => .error (.timeoutErr w.namespace' (getContainerName w)
          w.missing_timeout) := by
  rcases env with ⟨del, wait⟩
  rcases del with _ | e <;> rcases wait <;> simp [stop_instance]

/-- When the cleanup wait times out, `start_instance` stops there and the
timeout error propagates unwrapped. -/
lemma start_instance_of_wait_timeout (w : Worker) (s : WorkerState)
    (env : StartEnv) (hw : env.stopEnv.waitResult = .timeout) :
    (start_instance w s env).result =
        .error (.timeoutErr w.namespace' (getContainerName w)
          w.missing_timeout) ∧
      (start_instance w s env).events = cleanupEvents w := by
  simp only [start_instance, start_instance_body, stop_instance_rf_false_result,
    stop_instance_rf_false_events, hw, cleanupEvents]
  simp [WorkerError.isKubeError]

/-- When the cleanup succeeds but rendering fails, `start_instance`
propagates the render error unwrapped and issues no create call. -/
lemma start_instance_of_render_error (w : Worker) (s : WorkerState)
    (env : StartEnv) (msg : String)
    (hw : env.stopEnv.waitResult = .confirmed)
    (hr : env.renderResult = .error msg) :
    (start_instance w s env).result = .error (.renderErr msg) ∧
      (start_instance w s env).events = cleanupEvents w := by
  simp only [start_instance, start_instance_body, stop_instance_rf_false_result,
    stop_instance_rf_false_events, hw, hr, cleanupEvents]
  simp [WorkerError.isKubeError]

/-- When the cleanup succeeds and rendering produces a pod spec,
`start_instance` issues the create call; a `KubeError` from it is wrapped
into `LatentWorkerFailedToSubstantiate(str(e))`, otherwise the call
returns `True`.  The rendered spec is cached in the instance state. -/
lemma start_instance_of_render_ok (w : Worker) (s : WorkerState)
    (env : StartEnv) (spec : PodSpec)
    (hw : env.stopEnv.waitResult = .confirmed)
    (hr : env.renderResult = .ok spec) :
    (start_instance w s env).result =
        (match env.createPodResult with
         | some e => .error (.failedToSubstantiate e.message)
         | none => .ok true) ∧
      (start_instance w s env).events =
        cleanupEvents w ++ [Event.kube (.createPod w.namespace' spec)] ∧
      (start_instance w s env).state = ⟨none, some spec⟩ := by
  simp only [start_instance, start_instance_body, stop_instance_rf_false_result,
    stop_instance_rf_false_events, stop_instance_state, hw, hr, cleanupEvents]
  rcases env.createPodResult with _ | e <;>
    simp [WorkerError.isKubeError, WorkerError.toMessage]

/-- Neither the result nor the events of `start_instance` depend on the
incoming instance state: the cleanup stop clears it first. -/
lemma start_instance_state_irrel (w : Worker) (s s' : WorkerState)
    (env : StartEnv) :
    (start_instance w s env).result = (start_instance w s' env).result ∧
      (start_instance w s env).events = (start_instance w s' env).events :=
  ⟨rfl, rfl⟩

/-! ### Cluster-state liveness lemmas -/

/-- Running an appended call sequence runs the two parts in order. -/
lemma runCalls_append (live : List String) (xs ys : List KubeCall) :
    runCalls live (xs ++ ys) = runCalls (runCalls live xs) ys :=
  List.foldl_append ..

/-- Deleting a workload name leaves no live workload with that name. -/
lemma liveCount_applyCall_delete (live : List String) (ns n : String) :
    liveCount (applyCall live (.deletePod ns n)) n = 0 := by
  simp [liveCount, applyCall, List.count_eq_zero, List.mem_filter]

/-- Waiting changes no cluster state. -/
lemma liveCount_applyCall_wait (live : List String) (ns n' : String)
    (t : Nat) (m : String) :
    liveCount (applyCall live (.waitForPodDeletion ns n' t)) m =
      liveCount live m := rfl

/-- Creating one workload raises any name's live count by at most one. -/
lemma liveCount_applyCall_create (live : List String) (ns : String)
    (spec : PodSpec) (m : String) :
    liveCount (applyCall live (.createPod ns spec)) m ≤
      liveCount live m + 1 := by
  simp only [liveCount, applyCall, List.count_cons]
  split <;> omega

/-- The at-most-one-live invariant composes over concatenated call
sequences. -/
lemma atMostOneLive_append {live : List String} {n : String}
    {xs ys : List KubeCall} (hx : atMostOneLive live n xs)
    (hy : atMostOneLive (runCalls live xs) n ys) :
    atMostOneLive live n (xs ++ ys) := by
  intro k
  rw [List.take_append_eq_append_take]
  by_cases hk : k ≤ xs.length
  · rw [Nat.sub_eq_zero_of_le hk]
    simpa [runCalls] using hx k
  · rw [List.take_of_length_le (le_of_not_le hk), runCalls_append]
    exact hy (k - xs.length)

/-- After a delete of the name followed by a wait, no live workload
carries the name. -/
lemma runCalls_delete_wait (live : List String) (n ns ns2 n2 : String)
    (t : Nat) :
    liveCount (runCalls live
      [.deletePod ns n, .waitForPodDeletion ns2 n2 t]) n = 0 := by
  simp [runCalls, liveCount_applyCall_wait, liveCount_applyCall_delete]

/-- The delete-then-wait call sequence keeps at most one live workload
with the name and ends with none. -/
lemma atMostOneLive_delete_wait (live : List String) (n ns ns2 n2 : String)
    (t : Nat) (h : liveCount live n ≤ 1) :
    atMostOneLive live n
        [.deletePod ns n, .waitForPodDeletion ns2 n2 t] ∧
      liveCount (runCalls live
        [.deletePod ns n, .waitForPodDeletion ns2 n2 t]) n = 0 := by
  refine ⟨fun k => ?_, runCalls_delete_wait live n ns ns2 n2 t⟩
  match k with
  | 0 => simpa [runCalls] using h
  | 1 => simp [runCalls, liveCount_applyCall_delete]
  | (k + 2) =>
      rw [List.take_of_length_le (by simp)]
      simp [runCalls_delete_wait]

/-- After delete, wait and one create, at most one live workload carries
the name. -/
lemma runCalls_delete_wait_create (live : List String)
    (n ns ns2 n2 ns3 : String) (t : Nat) (spec : PodSpec) :
    liveCount (runCalls live
      [.deletePod ns n, .waitForPodDeletion ns2 n2 t,
       .createPod ns3 spec]) n ≤ 1 := by
  have hsplit : runCalls live
      [.deletePod ns n, .waitForPodDeletion ns2 n2 t, .createPod ns3 spec] =
      applyCall (runCalls live
        [.deletePod ns n, .waitForPodDeletion ns2 n2 t])
        (.createPod ns3 spec) := by
    simp [runCalls]
  rw [hsplit]
  calc liveCount (applyCall (runCalls live
          [.deletePod ns n, .waitForPodDeletion ns2 n2 t])
          (.createPod ns3 spec)) n
      ≤ liveCount (runCalls live
          [.deletePod ns n, .waitForPodDeletion ns2 n2 t]) n + 1 :=
        liveCount_applyCall_create ..
    _ = 1 := by rw [runCalls_delete_wait]

/-- The delete-then-wait-then-create call sequence keeps at most one live
workload with the name throughout and afterwards. -/
lemma atMostOneLive_delete_wait_create (live : List String)
    (n ns ns2 n2 ns3 : String) (t : Nat) (spec : PodSpec)
    (h : liveCount live n ≤ 1) :
    atMostOneLive live n
        [.deletePod ns n, .waitForPodDeletion ns2 n2 t,
         .createPod ns3 spec] ∧
      liveCount (runCalls live
        [.deletePod ns n, .waitForPodDeletion ns2 n2 t,
         .createPod ns3 spec]) n ≤ 1 := by
  refine ⟨fun k => ?_, runCalls_delete_wait_create ..⟩
  match k with
  | 0 => simpa [runCalls] using h
  | 1 => simp [runCalls, liveCount_applyCall_delete]
  | 2 => simp [runCalls, liveCount_applyCall_wait, liveCount_applyCall_delete]
  | (k + 3) =>
      rw [List.take_of_length_le (by simp)]
      exact runCalls_delete_wait_create ..

/-- The cluster calls of the cleanup stop, in order. -/
lemma kubeCalls_cleanupEvents (w : Worker) :
    kubeCalls (cleanupEvents w) =
      [.deletePod w.namespace' (getContainerName w),
       .waitForPodDeletion w.namespace' (getContainerName w)
         w.missing_timeout] := rfl

/-- Every `start_instance` invocation issues either delete-then-wait, or
delete-then-wait-then-create, in that order. -/
lemma start_instance_kubeCalls (w : Worker) (s : WorkerState)
    (env : StartEnv) :
    kubeCalls (start_instance w s env).events =
        [.deletePod w.namespace' (getContainerName w),
         .waitForPodDeletion w.namespace' (getContainerName w)
           w.missing_timeout] ∨
      ∃ spec, kubeCalls (start_instance w s env).events =
        [.deletePod w.namespace' (getContainerName w),
         .waitForPodDeletion w.namespace' (getContainerName w)
           w.missing_timeout,
         .createPod w.namespace' spec] := by
  cases hw : env.stopEnv.waitResult
  case timeout =>
    left
    rw [(start_instance_of_wait_timeout w s env hw).2, kubeCalls_cleanupEvents]
  case confirmed =>
    cases hr : env.renderResult
    case error msg =>
      left
      rw [(start_instance_of_render_error w s env msg hw hr).2,
        kubeCalls_cleanupEvents]
    case ok spec =>
      right
      refine ⟨spec, ?_⟩
      rw [(start_instance_of_render_ok w s env spec hw hr).2.1]
      simp [kubeCalls, cleanupEvents]

/-- One `start_instance` invocation preserves the at-most-one-live
invariant for the worker's workload name, throughout and afterwards. -/
lemma start_instance_atMostOne (w : Worker) (s : WorkerState)
    (env : StartEnv) (live : List String)
    (h : liveCount live (getContainerName w) ≤ 1) :
    atMostOneLive live (getContainerName w)
        (kubeCalls (start_instance w s env).events) ∧
      liveCount (runCalls live (kubeCalls (start_instance w s env).events))
        (getContainerName w) ≤ 1 := by
  rcases start_instance_kubeCalls w s env with hc | ⟨spec, hc⟩ <;> rw [hc]
  · obtain ⟨h1, h2⟩ := atMostOneLive_delete_wait live (getContainerName w)
      w.namespace' w.namespace' (getContainerName w) w.missing_timeout h
    exact ⟨h1, by rw [h2]; omega⟩
  · exact atMostOneLive_delete_wait_create live (getContainerName w)
      w.namespace' w.namespace' (getContainerName w) w.namespace'
      w.missing_timeout spec h

/-- The cluster calls of any `stop_instance` invocation: the delete
alone (reported delete error, or `fast`), or delete then wait. -/
lemma stop_instance_kubeCalls (w : Worker) (s : WorkerState)
    (fast reportFailure : Bool) (env : StopEnv) :
    kubeCalls (stop_instance w s fast reportFailure env).events =
        [.deletePod w.namespace' (getContainerName w)] ∨
      kubeCalls (stop_instance w s fast reportFailure env).events =
        [.deletePod w.namespace' (getContainerName w),
         .waitForPodDeletion w.namespace' (getContainerName w)
           w.missing_timeout] := by
  rcases env with ⟨del, wait⟩
  rcases del with _ | e <;> rcases wait <;> rcases fast <;>
    rcases reportFailure <;> simp [stop_instance, kubeCalls] <;>
    (try split) <;> simp [kubeCalls]

/-! ### Claim theorems -/

/-- Claim C1: if the `createPod` call raises a cluster-level `KubeError`
during `start_instance`, then `start_instance` fails with
`LatentWorkerFailedToSubstantiate` whose message contains the underlying
cluster error's message, and no success value is returned. -/
theorem start_instance_wraps_kube_error (w : Worker) (s : WorkerState)
    (env : StartEnv) (spec : PodSpec) (e : KubeJsonErr)
    (hw : env.stopEnv.waitResult = .confirmed)
    (hr : env.renderResult = .ok spec)
    (hc : env.createPodResult = some e) :
    ∃ msg, (start_instance w s env).result =
        .error (.failedToSubstantiate msg) ∧
      e.message.data <:+: msg.data ∧
      ∀ b, (start_instance w s env).result ≠ .ok b := by
  obtain ⟨hres, -, -⟩ := start_instance_of_render_ok w s env spec hw hr
  rw [hc] at hres
  exact ⟨e.message, hres, List.infix_refl _, fun b => by simp [hres]⟩

/-- Witness for C1: a creation rejection with reason `"Forbidden"` and a
message containing `"Forbidden"` yields the wrapped substantiation
failure. -/
theorem start_instance_wraps_kube_error_witness :
    (StartEnv.mk ⟨none, .confirmed⟩ (.ok specDemo)
        (some ⟨"Forbidden", "pods is Forbidden"⟩)).stopEnv.waitResult
        = .confirmed ∧
      ∃ msg, (start_instance wDemo sDemo
          (StartEnv.mk ⟨none, .confirmed⟩ (.ok specDemo)
            (some ⟨"Forbidden", "pods is Forbidden"⟩))).result =
          .error (.failedToSubstantiate msg) ∧
        ("pods is Forbidden").data <:+: msg.data ∧
        ∀ b, (start_instance wDemo sDemo
          (StartEnv.mk ⟨none, .confirmed⟩ (.ok specDemo)
            (some ⟨"Forbidden", "pods is Forbidden"⟩))).result ≠ .ok b :=
  ⟨rfl, start_instance_wraps_kube_error wDemo sDemo _ specDemo
    ⟨"Forbidden", "pods is Forbidden"⟩ rfl rfl rfl⟩

/-- Claim C3 counterexample: a `deletePod` failure with reason
`"NotFound"` under `reportFailure=true` is NOT surfaced as a failure —
`stop_instance` swallows `NotFound` regardless of `reportFailure` and
returns success. -/
theorem stop_instance_notfound_reported_cex :
    (stop_instance wDemo sDemo true true envNotFound).result = .ok () := rfl

/-- Claim C3 (amended): a `deletePod` error is re-raised exactly when
`reportFailure` is set and the reason differs from `"NotFound"`;
otherwise — including a `"NotFound"` under `reportFailure=true` — it is
swallowed and the call continues as if the delete had succeeded. -/
theorem stop_instance_delete_error_policy (w : Worker) (s : WorkerState)
    (fast reportFailure : Bool) (env : StopEnv) (e : KubeJsonErr)
    (hdel : env.deletePodResult = some e) :
    (reportFailure = true ∧ e.reason ≠ "NotFound" →
        (stop_instance w s fast reportFailure env).result =
          .error (.kubeJson e.reason e.message)) ∧
      (¬(reportFailure = true ∧ e.reason ≠ "NotFound") →
        (stop_instance w s fast reportFailure env).result =
          (stop_instance w s fast reportFailure
            ⟨none, env.waitResult⟩).result) := by
  rcases env with ⟨del, wait⟩
  simp only at hdel
  subst hdel
  constructor
  · rintro ⟨hrf, hne⟩
    subst hrf
    rcases fast <;> simp [stop_instance, hne]
  · intro hnot
    rcases not_and_or.mp hnot with hrf | hne
    · have hrf' : reportFailure = false := by
        rcases reportFailure <;> simp at hrf ⊢
      subst hrf'
      rcases fast <;> rcases wait <;> simp [stop_instance]
    · have hr : e.reason = "NotFound" := not_not.mp hne
      rcases fast <;> rcases wait <;> rcases reportFailure <;>
        simp [stop_instance, hr]

/-- Witness for C3 (amended): a `"Forbidden"` delete failure under
`reportFailure=true` is re-raised, concretely. -/
theorem stop_instance_delete_error_policy_witness :
    (StopEnv.mk (some ⟨"Forbidden", "no"⟩) .confirmed).deletePodResult
        = some ⟨"Forbidden", "no"⟩ ∧
      ((true = true ∧ ("Forbidden" : String) ≠ "NotFound" →
        (stop_instance wDemo sDemo true true
          ⟨some ⟨"Forbidden", "no"⟩, .confirmed⟩).result =
            .error (.kubeJson "Forbidden" "no")) ∧
      (¬(true = true ∧ ("Forbidden" : String) ≠ "NotFound") →
        (stop_instance wDemo sDemo true true
          ⟨some ⟨"Forbidden", "no"⟩, .confirmed⟩).result =
          (stop_instance wDemo sDemo true true
            ⟨none, .confirmed⟩).result)) :=
  ⟨rfl, stop_instance_delete_error_policy wDemo sDemo true true
    ⟨some ⟨"Forbidden", "no"⟩, .confirmed⟩ ⟨"Forbidden", "no"⟩ rfl⟩

/-- Claim C4: with `fast=true`, `stop_instance` never issues the
wait-for-deletion call and returns success whenever the delete call
raised no reportable error. -/
theorem stop_instance_fast_returns_after_delete (w : Worker)
    (s : WorkerState) (reportFailure : Bool) (env : StopEnv)
    (h : reportableDeleteError reportFailure env = false) :
    (stop_instance w s true reportFailure env).result = .ok () ∧
      ∀ ns n t, Event.kube (.waitForPodDeletion ns n t) ∉
        (stop_instance w s true reportFailure env).events := by
  rcases env with ⟨del, wait⟩
  rcases del with _ | e <;> rcases wait <;>
    simp [reportableDeleteError] at h <;>
    simp [stop_instance]
  all_goals
    rcases reportFailure <;> simp_all [stop_instance]

/-- Witness for C4: concrete fast stop with a `"NotFound"` delete error
returns success and never waits. -/
theorem stop_instance_fast_returns_after_delete_witness :
    reportableDeleteError true envNotFound = false ∧
      ((stop_instance wDemo sDemo true true envNotFound).result = .ok () ∧
        ∀ ns n t, Event.kube (.waitForPodDeletion ns n t) ∉
          (stop_instance wDemo sDemo true true envNotFound).events) :=
  ⟨by decide, stop_instance_fast_returns_after_delete wDemo sDemo true
    envNotFound (by decide)⟩

/-- Claim C5 counterexample: with `fast=false`, `reportFailure=true` and a
`"NotFound"` delete failure, `stop_instance` DOES issue the
wait-for-deletion call (the claim asserts it returns success without
invoking it); it still returns success when the wait confirms. -/
theorem stop_instance_notfound_slow_cex :
    Event.kube (.waitForPodDeletion "ci" "buildbot-wk" 45) ∈
        (stop_instance wDemo sDemo false true envNotFound).events ∧
      (stop_instance wDemo sDemo false true envNotFound).result = .ok () := by
  constructor
  · simp [stop_instance, wDemo, envNotFound, getContainerName]
  · rfl

/-- Claim C5 (amended): with `fast=false`, `reportFailure=true` and a
`"NotFound"` delete failure, `stop_instance` swallows the error, proceeds
to invoke wait-for-deletion, and returns success provided the wait
confirms. -/
theorem stop_instance_notfound_slow (w : Worker) (s : WorkerState)
    (env : StopEnv) (e : KubeJsonErr)
    (hdel : env.deletePodResult = some e)
    (hreason : e.reason = "NotFound")
    (hw : env.waitResult = .confirmed) :
    (stop_instance w s false true env).result = .ok () ∧
      Event.kube (.waitForPodDeletion w.namespace' (getContainerName w)
        w.missing_timeout) ∈ (stop_instance w s false true env).events := by
  rcases env with ⟨del, wait⟩
  simp only at hdel hw
  subst hdel
  subst hw
  simp [stop_instance, hreason]

/-- Witness for C5 (amended): the concrete `"NotFound"` slow stop. -/
theorem stop_instance_notfound_slow_witness :
    envNotFound.deletePodResult = some ⟨"NotFound", "pods buildbot-wk not found"⟩ ∧
      (⟨"NotFound", "pods buildbot-wk not found"⟩ : KubeJsonErr).reason = "NotFound" ∧
      envNotFound.waitResult = .confirmed ∧
      ((stop_instance wDemo sDemo false true envNotFound).result = .ok () ∧
        Event.kube (.waitForPodDeletion wDemo.namespace'
          (getContainerName wDemo) wDemo.missing_timeout) ∈
          (stop_instance wDemo sDemo false true envNotFound).events) :=
  ⟨rfl, rfl, rfl, stop_instance_notfound_slow wDemo sDemo envNotFound
    ⟨"NotFound", "pods buildbot-wk not found"⟩ rfl rfl rfl⟩

/-- Claim C6: on every path of `stop_instance`, whatever the flags and
call outcomes, the cached rendered pod spec is cleared, and the two
clearing steps come before any cluster-client call in the event order. -/
theorem stop_instance_clears_cached_spec (w : Worker) (s : WorkerState)
    (fast reportFailure : Bool) (env : StopEnv) :
    (stop_instance w s fast reportFailure env).state.current_pod_spec
        = none ∧
      (stop_instance w s fast reportFailure env).state.actual_build_props
        = none ∧
      ∃ rest, (stop_instance w s fast reportFailure env).events =
        Event.clearPodSpec :: Event.resetWorkerProps :: rest ∧
        ∀ ev ∈ rest, ∃ c, ev = Event.kube c := by
  refine ⟨by rw [stop_instance_state], by rw [stop_instance_state], ?_⟩
  rcases env with ⟨del, wait⟩
  rcases del with _ | e <;> rcases wait <;> rcases fast <;>
    rcases reportFailure <;> simp [stop_instance] <;> (try split) <;> simp

/-- Claim C7: with `fast=false` and a wait that never confirms within
`missing_timeout`, `stop_instance` fails with the timeout error, issues
the wait call exactly once (no retry), and a subsequent `start_instance`
is unaffected: from the post-timeout state it behaves exactly as from any
other state. -/
theorem stop_instance_wait_timeout (w : Worker) (s : WorkerState)
    (reportFailure : Bool) (env : StopEnv)
    (h : reportableDeleteError reportFailure env = false)
    (hw : env.waitResult = .timeout) :
    (stop_instance w s false reportFailure env).result =
        .error (.timeoutErr w.namespace' (getContainerName w)
          w.missing_timeout) ∧
      (stop_instance w s false reportFailure env).events =
        cleanupEvents w ∧
      ∀ (s' : WorkerState) (env2 : StartEnv),
        (start_instance w
            (stop_instance w s false reportFailure env).state env2).result =
            (start_instance w s' env2).result ∧
          (start_instance w
            (stop_instance w s false reportFailure env).state env2).events =
            (start_instance w s' env2).events := by
  refine ⟨?_, ?_, fun s' env2 => start_instance_state_irrel w _ s' env2⟩
  all_goals
    rcases env with ⟨del, wait⟩
    simp only at hw
    subst hw
    rcases del with _ | e <;>
      simp [reportableDeleteError] at h <;>
      rcases reportFailure <;> simp_all [stop_instance, cleanupEvents]

/-- Witness for C7: concrete slow stop whose wait times out. -/
theorem stop_instance_wait_timeout_witness :
    reportableDeleteError true (⟨none, .timeout⟩ : StopEnv) = false ∧
      (⟨none, .timeout⟩ : StopEnv).waitResult = .timeout ∧
      ((stop_instance wDemo sDemo false true ⟨none, .timeout⟩).result =
          .error (.timeoutErr wDemo.namespace' (getContainerName wDemo)
            wDemo.missing_timeout) ∧
        (stop_instance wDemo sDemo false true ⟨none, .timeout⟩).events =
          cleanupEvents wDemo ∧
        ∀ (s' : WorkerState) (env2 : StartEnv),
          (start_instance wDemo
              (stop_instance wDemo sDemo false true ⟨none, .timeout⟩).state
              env2).result = (start_instance wDemo s' env2).result ∧
            (start_instance wDemo
              (stop_instance wDemo sDemo false true ⟨none, .timeout⟩).state
              env2).events = (start_instance wDemo s' env2).events) :=
  ⟨by decide, rfl, stop_instance_wait_timeout wDemo sDemo true
    ⟨none, .timeout⟩ (by decide) rfl⟩

/-- Claim C8: a rendering failure propagates out of `start_instance`
as-is — it is not wrapped into `LatentWorkerFailedToSubstantiate`, which
wraps only `KubeError`-class errors. -/
theorem start_instance_render_error_propagates (w : Worker)
    (s : WorkerState) (env : StartEnv) (msg : String)
    (hw : env.stopEnv.waitResult = .confirmed)
    (hr : env.renderResult = .error msg) :
    (start_instance w s env).result = .error (.renderErr msg) ∧
      (WorkerError.renderErr msg).isKubeError = false ∧
      ∀ m, (start_instance w s env).result ≠
        .error (.failedToSubstantiate m) := by
  obtain ⟨hres, -⟩ := start_instance_of_render_error w s env msg hw hr
  exact ⟨hres, rfl, fun m => by simp [hres]⟩

/-- Witness for C8: a concrete render failure comes out unwrapped. -/
theorem start_instance_render_error_propagates_witness :
    (StartEnv.mk ⟨none, .confirmed⟩ (.error "cannot interpolate")
        none).stopEnv.waitResult = .confirmed ∧
      ((start_instance wDemo sDemo
          (StartEnv.mk ⟨none, .confirmed⟩ (.error "cannot interpolate")
            none)).result = .error (.renderErr "cannot interpolate") ∧
        (WorkerError.renderErr "cannot interpolate").isKubeError = false ∧
        ∀ m, (start_instance wDemo sDemo
          (StartEnv.mk ⟨none, .confirmed⟩ (.error "cannot interpolate")
            none)).result ≠ .error (.failedToSubstantiate m)) :=
  ⟨rfl, start_instance_render_error_propagates wDemo sDemo _
    "cannot interpolate" rfl rfl⟩

/-- Claim C9: with image rendered to `"worker:latest"`, environment
`{"X": "1"}` and every extension point at its default, `getPodSpec`
produces exactly one container, with that image, exactly that env entry,
and `restartPolicy = "Never"`. -/
theorem getPodSpec_default_shape (w : Worker) :
    ∃ c, (getPodSpec w "worker:latest" [("X", "1")]
          defaultExtensionPoints).containers = [c] ∧
      c.image = "worker:latest" ∧
      c.env = [⟨"X", "1"⟩] ∧
      (getPodSpec w "worker:latest" [("X", "1")]
        defaultExtensionPoints).restartPolicy = "Never" :=
  ⟨_, rfl, rfl, rfl, rfl⟩

/-- Claim C2: every `start_instance` first performs the remove-if-present
step — its event sequence extends that of `stop_instance` with failure
reporting suppressed — so its cluster-call sequence begins with the
deletion of the worker's workload name, before any creation; consequently
two substantiate calls in sequence with no intervening decommission keep
at most one live workload with the worker's identity at every point. -/
theorem start_instance_remove_before_create (w : Worker)
    (s : WorkerState) (e1 e2 : StartEnv) (live : List String)
    (hlive : liveCount live (getContainerName w) ≤ 1) :
    (∃ rest, (start_instance w s e1).events =
        (stop_instance w s false false e1.stopEnv).events ++ rest) ∧
      (∃ rest, kubeCalls (start_instance w s e1).events =
        KubeCall.deletePod w.namespace' (getContainerName w) :: rest) ∧
      atMostOneLive live (getContainerName w)
        (kubeCalls (start_instance w s e1).events ++
          kubeCalls (start_instance w (start_instance w s e1).state
            e2).events) := by
  refine ⟨?_, ?_, ?_⟩
  · rw [stop_instance_rf_false_events]
    cases hw : e1.stopEnv.waitResult
    case timeout =>
      exact ⟨[], by
        simp [(start_instance_of_wait_timeout w s e1 hw).2, cleanupEvents]⟩
    case confirmed =>
      cases hr : e1.renderResult
      case error msg =>
        exact ⟨[], by
          simp [(start_instance_of_render_error w s e1 msg hw hr).2,
            cleanupEvents]⟩
      case ok spec =>
        exact ⟨[Event.kube (.createPod w.namespace' spec)], by
          simp [(start_instance_of_render_ok w s e1 spec hw hr).2.1,
            cleanupEvents]⟩
  · rcases start_instance_kubeCalls w s e1 with hc | ⟨spec, hc⟩
    · exact ⟨_, by rw [hc]⟩
    · exact ⟨_, by rw [hc]⟩
  · obtain ⟨h1, h2⟩ := start_instance_atMostOne w s e1 live hlive
    obtain ⟨h3, -⟩ :=
      start_instance_atMostOne w (start_instance w s e1).state e2 _ h2
    exact atMostOneLive_append h1 h3

/-- Witness for C2: two concrete successful substantiations in sequence,
starting from a cluster that already holds one stale workload with the
worker's name. -/
theorem start_instance_remove_before_create_witness :
    liveCount ["buildbot-wk"] (getContainerName wDemo) ≤ 1 ∧
      ((∃ rest, (start_instance wDemo sDemo envCreateOk).events =
          (stop_instance wDemo sDemo false false
            envCreateOk.stopEnv).events ++ rest) ∧
        (∃ rest, kubeCalls (start_instance wDemo sDemo envCreateOk).events =
          KubeCall.deletePod wDemo.namespace'
            (getContainerName wDemo) :: rest) ∧
        atMostOneLive ["buildbot-wk"] (getContainerName wDemo)
          (kubeCalls (start_instance wDemo sDemo envCreateOk).events ++
            kubeCalls (start_instance wDemo
              (start_instance wDemo sDemo envCreateOk).state
              envCreateOk).events)) :=
  ⟨by decide, start_instance_remove_before_create wDemo sDemo envCreateOk
    envCreateOk ["buildbot-wk"] (by decide)⟩

/-- Claim C10: the worker-derived container name is used for the pod's
metadata name, for the primary container's name, and as the target of
every delete and wait request: when rendering produced `getPodSpec`'s
output, every cluster call issued by `start_instance` and by any
`stop_instance` targets exactly `getContainerName`, so the workload that
decommission deletes and awaits is the one substantiation creates. -/
theorem container_name_consistency (w : Worker) (s s2 : WorkerState)
    (fast reportFailure : Bool) (senv : StopEnv) (env : StartEnv)
    (image : String) (envvars : List (String × String))
    (ext : ExtensionPoints) (spec : PodSpec)
    (hspec : spec = getPodSpec w image envvars ext)
    (hrender : env.renderResult = .ok spec) :
    spec.metadataName = getContainerName w ∧
      (∃ c rest, spec.containers = c :: rest ∧
        c.name = getContainerName w) ∧
      (∀ c ∈ kubeCalls (start_instance w s env).events,
        c.targetName = getContainerName w) ∧
      (∀ c ∈ kubeCalls (stop_instance w s2 fast reportFailure senv).events,
        c.targetName = getContainerName w) := by
  subst hspec
  refine ⟨rfl, ⟨_, _, rfl, rfl⟩, ?_, ?_⟩
  · cases hw : env.stopEnv.waitResult
    case timeout =>
      intro c hm
      rw [(start_instance_of_wait_timeout w s env hw).2,
        kubeCalls_cleanupEvents] at hm
      simp at hm
      rcases hm with rfl | rfl <;> rfl
    case confirmed =>
      intro c hm
      rw [(start_instance_of_render_ok w s env _ hw hrender).2.1] at hm
      simp [kubeCalls, cleanupEvents] at hm
      rcases hm with rfl | rfl | rfl <;> rfl
  · intro c hm
    rcases stop_instance_kubeCalls w s2 fast reportFailure senv with hc | hc <;>
      rw [hc] at hm <;> simp at hm
    · subst hm; rfl
    · rcases hm with rfl | rfl <;> rfl

/-- Witness for C10: the concrete successful substantiation plus a
concrete decommission. -/
theorem container_name_consistency_witness :
    specDemo = getPodSpec wDemo "worker:latest" [("X", "1")]
        defaultExtensionPoints ∧
      envCreateOk.renderResult = .ok specDemo ∧
      (specDemo.metadataName = getContainerName wDemo ∧
        (∃ c rest, specDemo.containers = c :: rest ∧
          c.name = getContainerName wDemo) ∧
        (∀ c ∈ kubeCalls (start_instance wDemo sDemo envCreateOk).events,
          c.targetName = getContainerName wDemo) ∧
        (∀ c ∈ kubeCalls (stop_instance wDemo sDemo false true
            envNotFound).events,
          c.targetName = getContainerName wDemo)) :=
  ⟨rfl, rfl, container_name_consistency wDemo sDemo sDemo false true
    envNotFound envCreateOk "worker:latest" [("X", "1")]
    defaultExtensionPoints specDemo rfl rfl⟩

end KubeWorker
